import Mathlib

attribute [local semireducible] Rat.add Rat.mul Rat.inv Rat.sub

/-!
Shallow embedding of the aggregation / reporting core of the
ISPFCCComplainer repository (src/src/config.py, src/src/database.py,
src/src/daily_complaint.py, src/src/fcc_complainer.py,
src/src/email_notifier.py, src/src/main.py).

Real-valued quantities (Mbps throughputs, latencies, percentages) are
embedded as exact rationals: the spec describes them as non-negative
reals, and every concrete value exercised by the claims is exactly
representable.  Where a claim turns on IEEE evaluation order (the
independently computed means of C10), the binary64 arithmetic is
modelled explicitly: `roundB64` is round-to-nearest, ties-to-even at 53
significand bits, and `flAdd`/`flDiv`/`flMul` round after every exact
operation, so that `statistics.mean` (exact sum, one final rounding)
and float `sum(...)/len(...)` (a rounding per addition) are distinct
computations, as they are in CPython.  String rendering of numbers follows the Python format
specifiers used by the source (fixed-point with the given number of
decimals); rounding is to the nearest decimal, which agrees with
Python on every value exercised here (none sits on a rounding tie).

Effectful Python code is embedded by threading the ambient world
explicitly: an `Env` value carries the current wall-clock instant
(`datetime.now()`), and external interactions (the speed-test tool, the
browser-driven form submission, SMTP delivery) are passed in as `Except`
outcomes.  Pure source functions receive the same `Env` and are proved
not to depend on it.
-/

/-- Wall-clock instant, mirroring Python `datetime`: calendar fields plus
time of day.  SQLite stores `timestamp.isoformat()` and compares ISO
strings, which for in-range fields coincides with field-lexicographic
order, encoded here by `key`. -/
structure DateTime where
  year : Nat
  month : Nat
  day : Nat
  hour : Nat
  minute : Nat
  second : Nat
deriving DecidableEq, Repr

/-- Numeric encoding of a `DateTime` that is strictly monotone in
field-lexicographic order for in-range field values; mirrors comparison
of ISO-format timestamp strings. -/
def DateTime.key (t : DateTime) : Nat :=
  ((((t.year * 13 + t.month) * 32 + t.day) * 24 + t.hour) * 60 + t.minute) * 60 + t.second

/-- Calendar date of an instant, mirroring the SQLite `date(timestamp)`
projection used by the queries in database.py. -/
def DateTime.date (t : DateTime) : Nat × Nat × Nat :=
  (t.year, t.month, t.day)

/-- Ambient world state threaded through the embedded flows: the instant
`datetime.now()` would return. -/
structure Env where
  now : DateTime
deriving DecidableEq, Repr

/-- Left-pad a string to width `k` with zeros (decimal fraction digits,
strftime two-digit fields). -/
def zeroPad (s : String) (k : Nat) : String :=
  String.mk (List.replicate (k - s.length) '0') ++ s

/-- Left-pad a string to width `k` with spaces, mirroring Python format
specifiers such as `{x:>7.2f}`. -/
def spacePad (s : String) (k : Nat) : String :=
  String.mk (List.replicate (k - s.length) ' ') ++ s

/-- Two-digit zero-padded field, as in strftime `%m`, `%d`, `%H`, `%M`, `%S`. -/
def pad2 (n : Nat) : String := zeroPad (toString n) 2

/-- Four-digit zero-padded year, as in strftime `%Y`. -/
def pad4 (n : Nat) : String := zeroPad (toString n) 4

/-- English month name, as in strftime `%B`. -/
def monthName (m : Nat) : String :=
  match m with
  | 1 => "January" | 2 => "February" | 3 => "March" | 4 => "April"
  | 5 => "May" | 6 => "June" | 7 => "July" | 8 => "August"
  | 9 => "September" | 10 => "October" | 11 => "November" | 12 => "December"
  | _ => ""

/-- strftime with format `%Y-%m-%d`. -/
def DateTime.fmtYMD (t : DateTime) : String :=
  pad4 t.year ++ "-" ++ pad2 t.month ++ "-" ++ pad2 t.day

/-- strftime with format `%H:%M:%S`. -/
def DateTime.fmtHMS (t : DateTime) : String :=
  pad2 t.hour ++ ":" ++ pad2 t.minute ++ ":" ++ pad2 t.second

/-- strftime with format `%Y-%m-%d %H:%M:%S`. -/
def DateTime.fmtYMDHMS (t : DateTime) : String :=
  t.fmtYMD ++ " " ++ t.fmtHMS

/-- strftime with format `%B %d, %Y`. -/
def DateTime.fmtBdY (t : DateTime) : String :=
  monthName t.month ++ " " ++ pad2 t.day ++ ", " ++ toString t.year

/-- Floor of an exact rational as an integer (the denominator of a `Rat`
is positive, so flooring the integer division of numerator by denominator
is the mathematical floor). -/
def ratFloor (q : ℚ) : ℤ := Int.fdiv q.num q.den

/-- Nearest integer multiple of `10 ^ -k` below-or-at `q + 1/2`, the
integer of fraction digits behind Python fixed-point formatting.  Python
formats the IEEE double with round-half-even; on values off a tie (all
values exercised by the claims) the results coincide. -/
def roundAt (q : ℚ) (k : Nat) : ℤ :=
  ratFloor (q * (10 : ℚ) ^ k + 1 / 2)

/-- Python fixed-point formatting `f"{q:.kf}"` of an exact rational. -/
def formatFixed (q : ℚ) (k : Nat) : String :=
  let n := roundAt q k
  let m := n.natAbs
  let p := 10 ^ k
  let sign := if n < 0 then "-" else ""
  if k = 0 then sign ++ toString m
  else sign ++ toString (m / p) ++ "." ++ zeroPad (toString (m % p)) k

/-- Python `str` of a float holding an integral value (`1000.0` prints as
`"1000.0"`); the embedding only ever renders integral-valued fields this
way, matching every configuration the claims exercise. -/
def pyFloatStr (q : ℚ) : String :=
  if q.den = 1 then toString q.num ++ ".0" else formatFixed q 6

/-- Exact value of a mean over rationals (Python raises on an empty
list, which no embedded caller reaches: the flows check non-emptiness
first).  `statistics.mean` computes exactly this value and rounds once
on conversion back to float; float `sum(xs) / len(xs)` rounds at every
addition instead — the IEEE evaluations are modelled separately by
`roundB64`, `pyFloatSum` and the per-surface `_ieee` definitions. -/
def pymean (l : List ℚ) : ℚ := l.sum / l.length

/-- Python `min(xs)`; first minimal element semantics on the value level.
Python raises on an empty list, which no embedded caller reaches. -/
def pymin (l : List ℚ) : ℚ :=
  match l with
  | [] => 0
  | x :: xs => xs.foldl min x

/-- Python `max(xs)`; Python raises on an empty list, which no embedded
caller reaches. -/
def pymax (l : List ℚ) : ℚ :=
  match l with
  | [] => 0
  | x :: xs => xs.foldl max x

/-- Fuel-driven helper for `natLog2`, structurally recursive so the
kernel can evaluate it. -/
def log2fuel : Nat → Nat → Nat
  | 0, _ => 0
  | fuel + 1, n => if n ≤ 1 then 0 else log2fuel fuel (n / 2) + 1

/-- Floor of the base-2 logarithm of a natural number. -/
def natLog2 (n : Nat) : Nat := log2fuel n n

/-- Integer powers of two as rationals. -/
def zpow2 (k : ℤ) : ℚ :=
  if 0 ≤ k then (2 : ℚ) ^ k.toNat else 1 / (2 : ℚ) ^ (-k).toNat

/-- Floor of the base-2 logarithm of a positive rational. -/
def floorLog2 (q : ℚ) : ℤ :=
  let k : ℤ := (natLog2 q.num.natAbs : ℤ) - (natLog2 q.den : ℤ)
  if zpow2 k ≤ q then k else k - 1

/-- Round to the nearest integer, ties to even (the IEEE default
rounding). -/
def rndTiesEven (x : ℚ) : ℤ :=
  let f := ratFloor x
  let r := x - (f : ℚ)
  if r < 1 / 2 then f
  else if 1 / 2 < r then f + 1
  else if f % 2 = 0 then f else f + 1

/-- IEEE binary64 rounding of a positive rational in the normal range:
scale to a 53-bit significand and round to nearest, ties to even. -/
def roundB64pos (q : ℚ) : ℚ :=
  let e := floorLog2 q - 52
  (rndTiesEven (q / zpow2 e) : ℚ) * zpow2 e

/-- IEEE binary64 (Python float) rounding of an exact rational.
Overflow and subnormals sit far outside the Mbps-scale magnitudes any
embedded value reaches and are not modelled. -/
def roundB64 (q : ℚ) : ℚ :=
  if q = 0 then 0 else if q < 0 then -roundB64pos (-q) else roundB64pos q

/-- One IEEE double addition: exact sum, then one rounding. -/
def flAdd (a b : ℚ) : ℚ := roundB64 (a + b)

/-- One IEEE double division: exact quotient, then one rounding. -/
def flDiv (a b : ℚ) : ℚ := roundB64 (a / b)

/-- One IEEE double multiplication: exact product, then one rounding. -/
def flMul (a b : ℚ) : ℚ := roundB64 (a * b)

/-- Python `sum` over a list of floats: left fold of IEEE additions
starting from 0, rounding after every addition. -/
def pyFloatSum (l : List ℚ) : ℚ := l.foldl flAdd 0

/-- Application configuration, mirroring the `Config` dataclass of
config.py.  The threshold speed is not a field: it is the derived
property `Config.threshold_speed_mbps` below. -/
structure Config where
  advertised_speed_mbps : ℚ
  threshold_percent : ℤ
  fcc_username : String
  fcc_password : String
  isp_name : String
  isp_account_number : String
  service_address : String
  phone_number : String
  email : String
  first_name : String
  last_name : String
  db_path : String
  smtp_server : Option String
  smtp_port : ℤ
  smtp_username : Option String
  smtp_password : Option String
  smtp_use_tls : Bool
  notification_email : Option String
deriving DecidableEq, Repr

/-- Derived property `Config.threshold_speed_mbps` of config.py:
`advertised_speed_mbps * (threshold_percent / 100)`, recomputed on every
access. -/
def Config.threshold_speed_mbps (c : Config) : ℚ :=
  c.advertised_speed_mbps * ((c.threshold_percent : ℚ) / 100)

/-- Derived property `Config.email_enabled` of config.py. -/
def Config.email_enabled (c : Config) : Bool :=
  c.smtp_server.isSome && c.notification_email.isSome

/-- A persisted speed-test row, mirroring the `SpeedTestResult` dataclass
of database.py. -/
structure SpeedTestResult where
  id : Nat
  timestamp : DateTime
  download_mbps : ℚ
  upload_mbps : ℚ
  ping_ms : ℚ
  server : String
deriving DecidableEq, Repr

/-- A persisted complaint row, mirroring the `Complaint` dataclass of
database.py. -/
structure Complaint where
  id : Option Nat
  timestamp : DateTime
  speed_test_id : Nat
  complaint_text : String
  status : String
deriving DecidableEq, Repr

/-- In-memory image of the two SQLite tables of database.py.  Rows are
kept in insertion order; the queries that the source issues with an
`ORDER BY` clause sort explicitly below, mirroring that SQLite does not
guarantee an order without one. -/
structure DatabaseState where
  speed_tests : List SpeedTestResult
  complaints : List Complaint
deriving DecidableEq, Repr

/-- INSERT into `speed_tests` (database.py `save_speed_test`): assigns
the next AUTOINCREMENT row id, persists every field, returns the id. -/
def DatabaseState.save_speed_test (db : DatabaseState) (r : SpeedTestResult) :
    DatabaseState × Nat :=
  let newId := db.speed_tests.length + 1
  (⟨db.speed_tests ++ [⟨newId, r.timestamp, r.download_mbps, r.upload_mbps, r.ping_ms, r.server⟩],
    db.complaints⟩, newId)

/-- INSERT into `complaints` (database.py `save_complaint`): assigns the
next AUTOINCREMENT row id, persists every field, returns the id. -/
def DatabaseState.save_complaint (db : DatabaseState) (c : Complaint) :
    DatabaseState × Nat :=
  let newId := db.complaints.length + 1
  (⟨db.speed_tests,
    db.complaints ++ [⟨some newId, c.timestamp, c.speed_test_id, c.complaint_text, c.status⟩]⟩,
   newId)

/-- SELECT of database.py `get_speed_tests_for_date`: every row whose
`date(timestamp)` equals the given calendar date, ordered by timestamp
ascending. -/
def DatabaseState.get_speed_tests_for_date (db : DatabaseState) (d : Nat × Nat × Nat) :
    List SpeedTestResult :=
  List.insertionSort (fun a b => a.timestamp.key ≤ b.timestamp.key)
    (db.speed_tests.filter (fun t => decide (t.timestamp.date = d)))

/-- SELECT of database.py `get_daily_complaint_for_date`: the latest
complaint row of the given calendar date whose status is in
`('filed', 'daily_filed')`, if any (`ORDER BY timestamp DESC LIMIT 1`). -/
def DatabaseState.get_daily_complaint_for_date (db : DatabaseState) (d : Nat × Nat × Nat) :
    Option Complaint :=
  (List.insertionSort (fun a b => b.timestamp.key ≤ a.timestamp.key)
    (db.complaints.filter (fun c =>
      decide (c.timestamp.date = d) &&
      (c.status == "filed" || c.status == "daily_filed")))).head?

/-- Python `min(tests, key=lambda t: t.download_mbps)`: the first element
of minimal download throughput, `none` on an empty list (where Python
raises `ValueError`; no embedded caller reaches that). -/
def argminDownload (l : List SpeedTestResult) : Option SpeedTestResult :=
  match l with
  | [] => none
  | x :: xs =>
      some (xs.foldl (fun a t => if t.download_mbps < a.download_mbps then t else a) x)

/-- Placeholder sample used only to make `Option.getD` total where the
source would have raised on an empty list; never reached by the flows. -/
def dummySample : SpeedTestResult := ⟨0, ⟨0, 0, 0, 0, 0, 0⟩, 0, 0, 0, ""⟩

namespace daily_complaint

/-- Local list `downloads` of `generate_daily_complaint_text`
(daily_complaint.py line 28). -/
def downloads (tests : List SpeedTestResult) : List ℚ :=
  tests.map (fun t => t.download_mbps)

/-- Local list `uploads` (line 29). -/
def uploads (tests : List SpeedTestResult) : List ℚ :=
  tests.map (fun t => t.upload_mbps)

/-- Local list `pings` (line 30). -/
def pings (tests : List SpeedTestResult) : List ℚ :=
  tests.map (fun t => t.ping_ms)

/-- `avg_download = mean(downloads)` (line 32), via `statistics.mean`. -/
def avg_download (tests : List SpeedTestResult) : ℚ := pymean (downloads tests)

/-- `min_download = min(downloads)` (line 33). -/
def min_download (tests : List SpeedTestResult) : ℚ := pymin (downloads tests)

/-- `max_download = max(downloads)` (line 34). -/
def max_download (tests : List SpeedTestResult) : ℚ := pymax (downloads tests)

/-- `avg_upload = mean(uploads)` (line 35). -/
def avg_upload (tests : List SpeedTestResult) : ℚ := pymean (uploads tests)

/-- `avg_ping = mean(pings)` (line 36). -/
def avg_ping (tests : List SpeedTestResult) : ℚ := pymean (pings tests)

/-- `failed_tests = [t for t in tests if t.download_mbps <
config.threshold_speed_mbps]` (line 38). -/
def failed_tests (config : Config) (tests : List SpeedTestResult) : List SpeedTestResult :=
  tests.filter (fun t => decide (t.download_mbps < config.threshold_speed_mbps))

/-- `failure_rate = (failed_count / total_count) * 100 if total_count > 0
else 0` (line 41). -/
def failure_rate (config : Config) (tests : List SpeedTestResult) : ℚ :=
  if tests.length > 0 then
    (((failed_tests config tests).length : ℚ) / (tests.length : ℚ)) * 100
  else 0

/-- `avg_percent = (avg_download / config.advertised_speed_mbps) * 100`
(line 42). -/
def avg_percent (config : Config) (tests : List SpeedTestResult) : ℚ :=
  (avg_download tests / config.advertised_speed_mbps) * 100

/-- One line of the individual-test listing (lines 46-55). -/
def test_detail (config : Config) (t : SpeedTestResult) : String :=
  "  " ++ t.timestamp.fmtHMS ++ " - Down: "
    ++ spacePad (formatFixed t.download_mbps 2) 7 ++ " Mbps ("
    ++ spacePad (formatFixed ((t.download_mbps / config.advertised_speed_mbps) * 100) 1) 5
    ++ "%) | Up: " ++ spacePad (formatFixed t.upload_mbps 2) 7
    ++ " Mbps | Ping: " ++ spacePad (formatFixed t.ping_ms 1) 5 ++ " ms | "
    ++ (if t.download_mbps < config.threshold_speed_mbps then "FAILED" else "OK")

/-- `test_list = "\n".join(test_details)` (line 57). -/
def test_list (config : Config) (tests : List SpeedTestResult) : String :=
  String.intercalate "\n" (tests.map (test_detail config))

/-- The rendered daily complaint text of daily_complaint.py
`generate_daily_complaint_text` (lines 13-86).  The `Env` argument is the
ambient world threaded through every embedded function; the source body
never consults the clock, and the determinism theorem below proves the
output independent of it. -/
def generate_daily_complaint_text (config : Config) (tests : List SpeedTestResult)
    (report_date : DateTime) (_env : Env) : String :=
  String.intercalate "\n"
    [ "I am filing this complaint regarding consistently inadequate internet service from "
        ++ config.isp_name ++ "."
    , ""
    , "SERVICE DETAILS:"
    , "- Account Number: " ++ config.isp_account_number
    , "- Service Address: " ++ config.service_address
    , "- Advertised Speed: " ++ pyFloatStr config.advertised_speed_mbps ++ " Mbps"
    , "- Minimum Acceptable (" ++ toString config.threshold_percent ++ "%): "
        ++ formatFixed config.threshold_speed_mbps 1 ++ " Mbps"
    , ""
    , "DAILY SUMMARY FOR " ++ report_date.fmtYMD ++ ":"
    , "- Total Speed Tests: " ++ toString tests.length
    , "- Failed Tests (below " ++ toString config.threshold_percent ++ "%): "
        ++ toString (failed_tests config tests).length ++ " ("
        ++ formatFixed (failure_rate config tests) 1 ++ "% failure rate)"
    , "- Average Download: " ++ formatFixed (avg_download tests) 2 ++ " Mbps ("
        ++ formatFixed (avg_percent config tests) 1 ++ "% of advertised)"
    , "- Minimum Download: " ++ formatFixed (min_download tests) 2 ++ " Mbps"
    , "- Maximum Download: " ++ formatFixed (max_download tests) 2 ++ " Mbps"
    , "- Average Upload: " ++ formatFixed (avg_upload tests) 2 ++ " Mbps"
    , "- Average Ping: " ++ formatFixed (avg_ping tests) 1 ++ " ms"
    , ""
    , "INDIVIDUAL TEST RESULTS:"
    , test_list config tests
    , ""
    , "COMPLAINT:"
    , "On " ++ report_date.fmtBdY ++ ", I ran " ++ toString tests.length
        ++ " automated speed tests throughout the day to monitor my internet service from "
        ++ config.isp_name ++ ". Of these tests, "
        ++ toString (failed_tests config tests).length ++ " ("
        ++ formatFixed (failure_rate config tests) 1 ++ "%) fell below "
        ++ toString config.threshold_percent ++ "% of my advertised "
        ++ pyFloatStr config.advertised_speed_mbps ++ " Mbps service."
    , ""
    , "My average download speed for the day was only "
        ++ formatFixed (avg_download tests) 2 ++ " Mbps, which is "
        ++ formatFixed (avg_percent config tests) 1
        ++ "% of what I am paying for. This represents a significant and consistent failure by "
        ++ config.isp_name ++ " to deliver the service I am paying for."
    , ""
    , "I request that the FCC investigate this pattern of underperformance and require "
        ++ config.isp_name
        ++ " to either consistently provide the advertised speeds or adjust my billing to reflect the actual service being delivered."
    , ""
    , "This complaint was automatically generated from verified speed test data." ]

end daily_complaint

namespace fcc_complainer

/-- Local list `downloads` of `generate_daily_summary_complaint`
(fcc_complainer.py line 36). -/
def downloads (all_tests : List SpeedTestResult) : List ℚ :=
  all_tests.map (fun t => t.download_mbps)

/-- Local list `uploads` (line 37). -/
def uploads (all_tests : List SpeedTestResult) : List ℚ :=
  all_tests.map (fun t => t.upload_mbps)

/-- Local list `pings` (line 38). -/
def pings (all_tests : List SpeedTestResult) : List ℚ :=
  all_tests.map (fun t => t.ping_ms)

/-- Exact value of `avg_download = sum(downloads) / len(downloads)`
(line 40); the IEEE evaluation, which rounds at every addition and can
differ from `statistics.mean` on the same inputs, is
`fcc_complainer.avg_download_ieee` below. -/
def avg_download (all_tests : List SpeedTestResult) : ℚ :=
  (downloads all_tests).sum / ((downloads all_tests).length : ℚ)

/-- Exact value of `avg_upload = sum(uploads) / len(uploads)` (line 41);
the IEEE evaluation rounds at every addition. -/
def avg_upload (all_tests : List SpeedTestResult) : ℚ :=
  (uploads all_tests).sum / ((uploads all_tests).length : ℚ)

/-- Exact value of `avg_ping = sum(pings) / len(pings)` (line 42); the
IEEE evaluation rounds at every addition. -/
def avg_ping (all_tests : List SpeedTestResult) : ℚ :=
  (pings all_tests).sum / ((pings all_tests).length : ℚ)

/-- `min_download = min(downloads)` (line 43). -/
def min_download (all_tests : List SpeedTestResult) : ℚ := pymin (downloads all_tests)

/-- `max_download = max(downloads)` (line 44). -/
def max_download (all_tests : List SpeedTestResult) : ℚ := pymax (downloads all_tests)

/-- `failure_rate = (len(failed_tests) / len(all_tests)) * 100` (line 45);
the caller guarantees `all_tests` non-empty (Python would raise
`ZeroDivisionError` otherwise). -/
def failure_rate (failed_tests all_tests : List SpeedTestResult) : ℚ :=
  ((failed_tests.length : ℚ) / (all_tests.length : ℚ)) * 100

/-- `avg_pct = (avg_download / config.advertised_speed_mbps) * 100`
(line 46). -/
def avg_pct (config : Config) (all_tests : List SpeedTestResult) : ℚ :=
  (avg_download all_tests / config.advertised_speed_mbps) * 100

/-- `worst_test = min(all_tests, key=lambda t: t.download_mbps)` (line 48). -/
def worst_test (all_tests : List SpeedTestResult) : SpeedTestResult :=
  (argminDownload all_tests).getD dummySample

/-- One line of `_format_all_tests` (fcc_complainer.py lines 88-101). -/
def format_one_test (advertised_mbps threshold_mbps : ℚ) (test : SpeedTestResult) : String :=
  "  [" ++ (if test.download_mbps < threshold_mbps then "FAIL" else "OK") ++ "] "
    ++ test.timestamp.fmtHMS ++ ": "
    ++ formatFixed test.download_mbps 2 ++ " Mbps down, "
    ++ formatFixed test.upload_mbps 2 ++ " Mbps up, "
    ++ formatFixed test.ping_ms 1 ++ "ms ping ("
    ++ formatFixed ((test.download_mbps / advertised_mbps) * 100) 1 ++ "%)"

/-- `_format_all_tests` of fcc_complainer.py. -/
def format_all_tests (tests : List SpeedTestResult) (advertised_mbps threshold_mbps : ℚ) :
    String :=
  String.intercalate "\n" (tests.map (format_one_test advertised_mbps threshold_mbps))

/-- The rendered daily summary complaint of fcc_complainer.py
`generate_daily_summary_complaint` (lines 16-85).  The `Env` argument is
the explicitly threaded ambient world; the source body never consults
the clock. -/
def generate_daily_summary_complaint (config : Config) (date : DateTime)
    (failed_tests all_tests : List SpeedTestResult) (_env : Env) : String :=
  String.intercalate "\n"
    [ "I am filing this complaint regarding inadequate internet service from "
        ++ config.isp_name ++ "."
    , ""
    , "SERVICE DETAILS:"
    , "- Account Number: " ++ config.isp_account_number
    , "- Service Address: " ++ config.service_address
    , "- Advertised Speed: " ++ pyFloatStr config.advertised_speed_mbps ++ " Mbps"
    , "- Minimum Acceptable (" ++ toString config.threshold_percent ++ "%): "
        ++ formatFixed config.threshold_speed_mbps 1 ++ " Mbps"
    , ""
    , "DAILY SUMMARY FOR " ++ date.fmtYMD ++ ":"
    , "- Total Speed Tests: " ++ toString all_tests.length
    , "- Tests Below Threshold: " ++ toString failed_tests.length ++ " ("
        ++ formatFixed (failure_rate failed_tests all_tests) 1 ++ "%)"
    , "- Average Download Speed: " ++ formatFixed (avg_download all_tests) 2 ++ " Mbps ("
        ++ formatFixed (avg_pct config all_tests) 1 ++ "% of advertised)"
    , "- Average Upload Speed: " ++ formatFixed (avg_upload all_tests) 2 ++ " Mbps"
    , "- Average Ping: " ++ formatFixed (avg_ping all_tests) 1 ++ " ms"
    , "- Minimum Download Speed: " ++ formatFixed (min_download all_tests) 2 ++ " Mbps"
    , "- Maximum Download Speed: " ++ formatFixed (max_download all_tests) 2 ++ " Mbps"
    , ""
    , "WORST RESULT:"
    , "- Date/Time: " ++ (worst_test all_tests).timestamp.fmtYMDHMS
    , "- Download Speed: " ++ formatFixed (worst_test all_tests).download_mbps 2 ++ " Mbps ("
        ++ formatFixed (((worst_test all_tests).download_mbps / config.advertised_speed_mbps) * 100) 1
        ++ "% of advertised)"
    , "- Upload Speed: " ++ formatFixed (worst_test all_tests).upload_mbps 2 ++ " Mbps"
    , "- Ping: " ++ formatFixed (worst_test all_tests).ping_ms 1 ++ " ms"
    , "- Test Server: " ++ (worst_test all_tests).server
    , ""
    , "ALL SPEED TESTS FOR " ++ date.fmtYMD ++ ":"
    , format_all_tests all_tests config.advertised_speed_mbps config.threshold_speed_mbps
    , ""
    , "COMPLAINT:"
    , "I am paying for " ++ pyFloatStr config.advertised_speed_mbps
        ++ " Mbps internet service but on " ++ date.fmtYMD
        ++ ", my average download speed was only " ++ formatFixed (avg_download all_tests) 2
        ++ " Mbps (" ++ formatFixed (avg_pct config all_tests) 1 ++ "% of advertised). Out of "
        ++ toString all_tests.length ++ " speed tests conducted, "
        ++ toString failed_tests.length ++ " ("
        ++ formatFixed (failure_rate failed_tests all_tests) 1
        ++ "%) showed download speeds below the " ++ toString config.threshold_percent
        ++ "% threshold."
    , ""
    , "The worst test showed only " ++ formatFixed (worst_test all_tests).download_mbps 2
        ++ " Mbps (" ++ formatFixed (((worst_test all_tests).download_mbps / config.advertised_speed_mbps) * 100) 1
        ++ "% of advertised speed)."
    , ""
    , "This represents a consistent failure by " ++ config.isp_name
        ++ " to deliver the service I am paying for. I request that the FCC investigate this matter and require "
        ++ config.isp_name
        ++ " to either provide the advertised speeds or adjust my billing accordingly."
    , ""
    , "This complaint was automatically generated based on automated speed testing throughout the day." ]

/-- The rendered single-sample complaint of fcc_complainer.py
`generate_complaint_text` (lines 104-138). -/
def generate_complaint_text (config : Config) (speed_result : SpeedTestResult)
    (_env : Env) : String :=
  String.intercalate "\n"
    [ "I am filing this complaint regarding inadequate internet service from "
        ++ config.isp_name ++ "."
    , ""
    , "SERVICE DETAILS:"
    , "- Account Number: " ++ config.isp_account_number
    , "- Service Address: " ++ config.service_address
    , "- Advertised Speed: " ++ pyFloatStr config.advertised_speed_mbps ++ " Mbps"
    , "- Minimum Acceptable (" ++ toString config.threshold_percent ++ "%): "
        ++ formatFixed config.threshold_speed_mbps 1 ++ " Mbps"
    , ""
    , "SPEED TEST RESULTS:"
    , "- Date/Time: " ++ speed_result.timestamp.fmtYMDHMS
    , "- Download Speed: " ++ formatFixed speed_result.download_mbps 2 ++ " Mbps ("
        ++ formatFixed ((speed_result.download_mbps / config.advertised_speed_mbps) * 100) 1
        ++ "% of advertised)"
    , "- Upload Speed: " ++ formatFixed speed_result.upload_mbps 2 ++ " Mbps"
    , "- Ping: " ++ formatFixed speed_result.ping_ms 1 ++ " ms"
    , "- Test Server: " ++ speed_result.server
    , ""
    , "COMPLAINT:"
    , "I am paying for " ++ pyFloatStr config.advertised_speed_mbps
        ++ " Mbps internet service but consistently receiving speeds far below what is advertised. The speed test above shows I am receiving only "
        ++ formatFixed ((speed_result.download_mbps / config.advertised_speed_mbps) * 100) 1
        ++ "% of my advertised speed, which is below the " ++ toString config.threshold_percent
        ++ "% threshold I consider acceptable."
    , ""
    , "This represents a failure by " ++ config.isp_name
        ++ " to deliver the service I am paying for. I request that the FCC investigate this matter and require "
        ++ config.isp_name
        ++ " to either provide the advertised speeds or adjust my billing accordingly."
    , ""
    , "This complaint was automatically generated and filed due to repeated speed test failures." ]

end fcc_complainer

namespace email_notifier

/-- Local list `downloads` of `send_daily_summary_email`
(email_notifier.py line 139). -/
def downloads (all_tests : List SpeedTestResult) : List ℚ :=
  all_tests.map (fun t => t.download_mbps)

/-- Exact value of `avg_download = sum(downloads) / len(downloads)`
(line 140); the IEEE evaluation is `email_notifier.avg_download_ieee`
below. -/
def avg_download (all_tests : List SpeedTestResult) : ℚ :=
  (downloads all_tests).sum / ((downloads all_tests).length : ℚ)

/-- `min_download = min(downloads)` (line 141). -/
def min_download (all_tests : List SpeedTestResult) : ℚ := pymin (downloads all_tests)

/-- `max_download = max(downloads)` (line 142). -/
def max_download (all_tests : List SpeedTestResult) : ℚ := pymax (downloads all_tests)

/-- `failure_rate = (len(failed_tests) / len(all_tests)) * 100 if
all_tests else 0` (line 144). -/
def failure_rate (failed_tests all_tests : List SpeedTestResult) : ℚ :=
  if all_tests.length > 0 then ((failed_tests.length : ℚ) / (all_tests.length : ℚ)) * 100
  else 0

/-- One line of the FAILED TESTS section (lines 167-169). -/
def failed_line (config : Config) (test : SpeedTestResult) : String :=
  "  - " ++ test.timestamp.fmtHMS ++ ": " ++ formatFixed test.download_mbps 2
    ++ " Mbps (" ++ formatFixed ((test.download_mbps / config.advertised_speed_mbps) * 100) 1
    ++ "%)\n"

/-- Body of the daily summary email of email_notifier.py
`send_daily_summary_email` (lines 108-175); the subject line is not
modelled separately by any claim. -/
def daily_summary_body (config : Config) (date : DateTime)
    (all_tests failed_tests : List SpeedTestResult) (complaint_filed : Bool) : String :=
  if all_tests.isEmpty then
    "Daily Speed Test Summary for " ++ date.fmtYMD ++ "\n\n"
      ++ "No speed tests were recorded for this date.\n\n"
      ++ "This is an automated notification from ISPFCCComplainer.\n"
  else
    "Daily Speed Test Summary for " ++ date.fmtYMD ++ "\n\n"
      ++ "ISP: " ++ config.isp_name ++ "\n"
      ++ "Advertised Speed: " ++ pyFloatStr config.advertised_speed_mbps ++ " Mbps\n"
      ++ "Threshold: " ++ toString config.threshold_percent ++ "% ("
      ++ formatFixed config.threshold_speed_mbps 1 ++ " Mbps)\n\n"
      ++ "SUMMARY:\n"
      ++ "- Total Tests: " ++ toString all_tests.length ++ "\n"
      ++ "- Failed Tests: " ++ toString failed_tests.length ++ " ("
      ++ formatFixed (failure_rate failed_tests all_tests) 1 ++ "%)\n"
      ++ "- Average Download: " ++ formatFixed (avg_download all_tests) 2 ++ " Mbps ("
      ++ formatFixed ((avg_download all_tests / config.advertised_speed_mbps) * 100) 1
      ++ "% of advertised)\n"
      ++ "- Min Download: " ++ formatFixed (min_download all_tests) 2 ++ " Mbps\n"
      ++ "- Max Download: " ++ formatFixed (max_download all_tests) 2 ++ " Mbps\n\n"
      ++ "COMPLAINT STATUS: " ++ (if complaint_filed then "Filed" else "Not Filed") ++ "\n\n"
      ++ (if failed_tests.isEmpty then ""
          else "FAILED TESTS:\n" ++ String.join (failed_tests.map (failed_line config)) ++ "\n")
      ++ "This is an automated notification from ISPFCCComplainer.\n"

end email_notifier

namespace daily_complaint

/-- IEEE evaluation of `avg_download` (daily_complaint.py line 32):
`statistics.mean` lifts the floats to exact fractions, sums and divides
exactly, and rounds once when converting the exact mean back to
float. -/
def avg_download_ieee (tests : List SpeedTestResult) : ℚ :=
  roundB64 ((downloads tests).sum / ((downloads tests).length : ℚ))

/-- IEEE evaluation of `failure_rate` (line 41): one rounded integer
division, one rounded multiplication. -/
def failure_rate_ieee (config : Config) (tests : List SpeedTestResult) : ℚ :=
  if tests.length > 0 then
    flMul (flDiv ((failed_tests config tests).length : ℚ) (tests.length : ℚ)) 100
  else 0

end daily_complaint

namespace fcc_complainer

/-- IEEE evaluation of `avg_download` (fcc_complainer.py line 40):
`sum(downloads)` rounds after every addition and the division by the
length rounds once more. -/
def avg_download_ieee (all_tests : List SpeedTestResult) : ℚ :=
  flDiv (pyFloatSum (downloads all_tests)) ((downloads all_tests).length : ℚ)

/-- IEEE evaluation of `failure_rate` (line 45): the same two rounded
operations as in the other two surfaces. -/
def failure_rate_ieee (failed_tests all_tests : List SpeedTestResult) : ℚ :=
  flMul (flDiv (failed_tests.length : ℚ) (all_tests.length : ℚ)) 100

end fcc_complainer

namespace email_notifier

/-- IEEE evaluation of `avg_download` (email_notifier.py line 140) —
operation for operation the same computation as in the summary
generator. -/
def avg_download_ieee (all_tests : List SpeedTestResult) : ℚ :=
  flDiv (pyFloatSum (downloads all_tests)) ((downloads all_tests).length : ℚ)

/-- IEEE evaluation of `failure_rate` (line 144). -/
def failure_rate_ieee (failed_tests all_tests : List SpeedTestResult) : ℚ :=
  if all_tests.length > 0 then
    flMul (flDiv (failed_tests.length : ℚ) (all_tests.length : ℚ)) 100
  else 0

end email_notifier

/-- Outcome of one embedded CLI flow: the Python exit code, the final
store contents, and the complaint text the flow rendered (if the text
generator was invoked at all). -/
structure FlowResult where
  exit_code : ℤ
  db : DatabaseState
  rendered : Option String
deriving DecidableEq, Repr

/-- A Python exception escaping to the top level uncaught. -/
inductive PyError where
  | attributeError (attr : String)
deriving DecidableEq, Repr

namespace daily_complaint

/-- The decision flow of daily_complaint.py `main` (lines 89-294) after
configuration loading and argument parsing.  `report_date` is the
resolved reporting date (the `--date` argument, else yesterday);
`filing` is the outcome of the inline browser interaction (login,
fill, submit), whose exceptions the source catches per attempt.  A
browser-launch failure caught by the outer handler (exit 1, nothing
persisted) is not modelled; the synthetic `avg_result` built at lines
196-203 is dead code in the source (never used afterwards) and is not
modelled either. -/
def main (config : Config) (db : DatabaseState) (dry_run force : Bool)
    (report_date : DateTime) (env : Env) (filing : Except String Unit) : FlowResult :=
  let tests := db.get_speed_tests_for_date report_date.date
  match tests with
  | [] => ⟨0, db, none⟩
  | t0 :: _ =>
      let failed := failed_tests config tests
      if failed.length = 0 && !force then ⟨0, db, none⟩
      else
        let complaint_text := generate_daily_complaint_text config tests report_date env
        if dry_run then
          ⟨2, (db.save_complaint ⟨none, env.now, t0.id, complaint_text, "daily_dry_run"⟩).1,
            some complaint_text⟩
        else
          match filing with
          | .ok _ =>
              ⟨2, (db.save_complaint ⟨none, env.now, t0.id, complaint_text, "daily_filed"⟩).1,
                some complaint_text⟩
          | .error _ =>
              ⟨1, (db.save_complaint ⟨none, env.now, t0.id, complaint_text, "daily_failed"⟩).1,
                some complaint_text⟩

end daily_complaint

namespace Main

/-- The flow of main.py `_run_speed_test_flow` (lines 119-237).  `sample`
is the outcome of `run_speed_test()` (a `MeasurementError` surfaces as
`.error`); `filing` is the outcome of `file_fcc_complaint` (`.ok b` is
its boolean return, `.error` a raised `RuntimeError`).  Email delivery
failures are caught and change nothing persisted or returned, so email
is not a parameter. -/
def _run_speed_test_flow (config : Config) (db : DatabaseState)
    (dry_run test_only : Bool) (sample : Except String SpeedTestResult)
    (filing : Except String Bool) (env : Env) : FlowResult :=
  match sample with
  | .error _ => ⟨1, db, none⟩
  | .ok r =>
      let saved := db.save_speed_test r
      let db1 := saved.1
      let test_id := saved.2
      let result : SpeedTestResult :=
        ⟨test_id, r.timestamp, r.download_mbps, r.upload_mbps, r.ping_ms, r.server⟩
      if test_only then ⟨0, db1, none⟩
      else if result.download_mbps ≥ config.threshold_speed_mbps then ⟨0, db1, none⟩
      else if dry_run then
        let complaint_text := fcc_complainer.generate_complaint_text config result env
        ⟨2, (db1.save_complaint ⟨none, env.now, test_id, complaint_text, "dry_run"⟩).1,
          some complaint_text⟩
      else
        match filing with
        | .ok success =>
            let complaint_text := fcc_complainer.generate_complaint_text config result env
            let db2 := (db1.save_complaint
              ⟨none, env.now, test_id, complaint_text,
                if success then "filed" else "failed"⟩).1
            if success then ⟨2, db2, some complaint_text⟩ else ⟨1, db2, some complaint_text⟩
        | .error _ =>
            let complaint_text := fcc_complainer.generate_complaint_text config result env
            ⟨1, (db1.save_complaint ⟨none, env.now, test_id, complaint_text, "failed"⟩).1,
              some complaint_text⟩

/-- The flow of main.py `_run_daily_report` (lines 240-408) as the code
stands.  `report_date_arg` models the `--report-date` handling: `none`
if the flag is absent (default yesterday), `some none` if
`datetime.strptime` rejects the string (exit 1), `some (some d)` if it
parses.  Past date resolution the source evaluates
`db.get_failed_tests_for_date` (line 272) — an attribute the `Database`
class of database.py does not define — so every such invocation raises
`AttributeError`, which nothing in main.py catches. -/
def _run_daily_report (_config : Config) (db : DatabaseState) (_dry_run : Bool)
    (report_date_arg : Option (Option DateTime)) (_email_only _no_email : Bool)
    (_env : Env) : Except PyError FlowResult :=
  match report_date_arg with
  | some none => .ok ⟨1, db, none⟩
  | _ => .error (.attributeError "get_failed_tests_for_date")

end Main

/-- Modelled from the spec: `Database.get_failed_tests_for_date` is
invoked by main.py line 272 but no such method exists in database.py.
Spec §4.3 defines the failed subset as every sample whose download
throughput is strictly less than the threshold speed. -/
def DatabaseState.get_failed_tests_for_date (db : DatabaseState) (d : Nat × Nat × Nat)
    (threshold_mbps : ℚ) : List SpeedTestResult :=
  (db.get_speed_tests_for_date d).filter (fun t => decide (t.download_mbps < threshold_mbps))

/-- Modelled from the spec: `Database.was_complaint_filed_for_date` is
invoked by main.py line 304 but no such method exists in database.py.
Spec §4.1 and §5 describe the already-filed-today check as the
latest-complaint lookup restricted to the successful statuses, which
`get_daily_complaint_for_date` implements. -/
def DatabaseState.was_complaint_filed_for_date (db : DatabaseState) (d : Nat × Nat × Nat) :
    Bool :=
  (db.get_daily_complaint_for_date d).isSome

namespace Main

/-- The flow main.py `_run_daily_report` (lines 240-408) would compute if
the two missing `Database` methods behaved as the spec describes them
(see `DatabaseState.get_failed_tests_for_date` and
`DatabaseState.was_complaint_filed_for_date` above).  `filing` is the
outcome of `file_fcc_complaint` on the worst failed test; `email_ok`
is whether `send_complaint_notification` succeeds in email-only mode
(elsewhere email failures are caught and change nothing). -/
def _run_daily_report_modelled (config : Config) (db : DatabaseState)
    (dry_run email_only : Bool) (report_date : DateTime) (env : Env)
    (filing : Except String Bool) (email_ok : Bool) : FlowResult :=
  let all_tests := db.get_speed_tests_for_date report_date.date
  let failed_tests := db.get_failed_tests_for_date report_date.date config.threshold_speed_mbps
  match all_tests with
  | [] => ⟨0, db, none⟩
  | _ :: _ =>
      if failed_tests.isEmpty then ⟨0, db, none⟩
      else if db.was_complaint_filed_for_date env.now.date then ⟨0, db, none⟩
      else
        let complaint_text :=
          fcc_complainer.generate_daily_summary_complaint config report_date
            failed_tests all_tests env
        let worst := (argminDownload failed_tests).getD dummySample
        if dry_run then
          ⟨2, (db.save_complaint ⟨none, env.now, worst.id, complaint_text, "dry_run"⟩).1,
            some complaint_text⟩
        else if email_only then
          if config.email_enabled then
            if email_ok then
              ⟨2, (db.save_complaint ⟨none, env.now, worst.id, complaint_text, "emailed"⟩).1,
                some complaint_text⟩
            else ⟨1, db, some complaint_text⟩
          else ⟨1, db, some complaint_text⟩
        else
          match filing with
          | .ok success =>
              let db2 := (db.save_complaint
                ⟨none, env.now, worst.id, complaint_text,
                  if success then "filed" else "failed"⟩).1
              if success then ⟨2, db2, some complaint_text⟩
              else ⟨1, db2, some complaint_text⟩
          | .error _ =>
              ⟨1, (db.save_complaint ⟨none, env.now, worst.id, complaint_text, "failed"⟩).1,
                some complaint_text⟩

end Main

/-- Concrete configuration used by the concrete-input theorems:
advertised 1000 Mbps, threshold 70 percent (the defaults of config.py). -/
def cfgA : Config :=
  ⟨1000, 70, "fccuser", "fccpass", "ExampleISP", "ACCT-1", "1 Main St",
   "5550100", "user@example.com", "Ada", "Lovelace", "speedtest_history.db",
   none, 587, none, none, true, none⟩

/-- Sample of 2026-10-11 08:00, download 650 Mbps. -/
def tA : SpeedTestResult := ⟨1, ⟨2026, 10, 11, 8, 0, 0⟩, 650, 40, 12, "srvA"⟩

/-- Sample of 2026-10-11 12:00, download 720 Mbps. -/
def tB : SpeedTestResult := ⟨2, ⟨2026, 10, 11, 12, 0, 0⟩, 720, 41, 11, "srvB"⟩

/-- Sample of 2026-10-11 16:00, download 680 Mbps. -/
def tC : SpeedTestResult := ⟨3, ⟨2026, 10, 11, 16, 0, 0⟩, 680, 42, 13, "srvC"⟩

/-- Store holding the three samples of the concrete test day. -/
def dbA : DatabaseState := ⟨[tA, tB, tC], []⟩

/-- The concrete reporting date 2026-10-11. -/
def dayA : DateTime := ⟨2026, 10, 11, 0, 0, 0⟩

/-- Ambient world for the concrete runs: the clock reads 2026-10-12 06:00. -/
def envA : Env := ⟨⟨2026, 10, 12, 6, 0, 0⟩⟩

/-- A successful daily complaint filed earlier on 2026-10-12 (the same
calendar day `envA` runs on). -/
def cPrev : Complaint := ⟨some 1, ⟨2026, 10, 12, 5, 0, 0⟩, 1, "earlier complaint", "daily_filed"⟩

/-- Store that already holds a successful complaint for today plus the
(partly failing) samples of yesterday. -/
def dbB : DatabaseState := ⟨[tA, tB, tC], [cPrev]⟩

/-- Sample of 2026-10-11 08:00, download 720 Mbps: the FIRST sample of its
day but not the worst. -/
def tD : SpeedTestResult := ⟨1, ⟨2026, 10, 11, 8, 0, 0⟩, 720, 40, 12, "srvA"⟩

/-- Sample of 2026-10-11 09:00, download 650 Mbps: the worst sample of its
day but not the first. -/
def tE : SpeedTestResult := ⟨2, ⟨2026, 10, 11, 9, 0, 0⟩, 650, 40, 12, "srvB"⟩

/-- Store where the first sample of the day is not the minimum-download
one. -/
def dbC : DatabaseState := ⟨[tD, tE], []⟩

/-- The IEEE double nearest 0.1, the value a Python literal `0.1`
actually holds: 3602879701896397 / 2 ^ 55. -/
def oneTenthDouble : ℚ := 3602879701896397 / 36028797018963968

/-- Sample whose stored download throughput is the double nearest
0.1 Mbps. -/
def sF : SpeedTestResult := ⟨1, ⟨2026, 10, 11, 8, 0, 0⟩, oneTenthDouble, 40, 12, "srvF"⟩

/-- Helper: the head of an insertion sort is an element of the original
list. -/
theorem head?_insertionSort_mem {α : Type} (r : α → α → Prop) [DecidableRel r]
    (l : List α) (x : α) (h : (List.insertionSort r l).head? = some x) : x ∈ l := by
  have hx : x ∈ List.insertionSort r l := by
    cases hl : List.insertionSort r l with
    | nil => rw [hl] at h; simp at h
    | cons a t =>
        rw [hl] at h
        simp at h
        exact h ▸ List.mem_cons_self a t
  exact ((List.perm_insertionSort r l).mem_iff).mp hx

/-- Helper: sorting a non-empty list yields a head. -/
theorem head?_insertionSort_isSome {α : Type} (r : α → α → Prop) [DecidableRel r]
    (l : List α) (h : l ≠ []) : (List.insertionSort r l).head?.isSome := by
  cases hl : List.insertionSort r l with
  | nil =>
      have hlen := (List.perm_insertionSort r l).length_eq
      rw [hl] at hlen
      simp at hlen
      exact absurd (List.length_eq_zero.mp hlen.symm) h
  | cons a t => simp

/-- Helper: the running minimum of `argminDownload` stays in the
accumulator-or-list. -/
theorem foldl_minDownload_mem :
    ∀ (xs : List SpeedTestResult) (acc : SpeedTestResult),
      xs.foldl (fun a t => if t.download_mbps < a.download_mbps then t else a) acc = acc ∨
      xs.foldl (fun a t => if t.download_mbps < a.download_mbps then t else a) acc ∈ xs
  | [], _ => Or.inl rfl
  | x :: xs, acc => by
      have ih := foldl_minDownload_mem xs (if x.download_mbps < acc.download_mbps then x else acc)
      simp only [List.foldl_cons]
      rcases ih with h | h
      · rw [h]
        by_cases hc : x.download_mbps < acc.download_mbps
        · rw [if_pos hc]; exact Or.inr (List.mem_cons_self x xs)
        · rw [if_neg hc]; exact Or.inl rfl
      · exact Or.inr (List.mem_cons_of_mem x h)

/-- Helper: the running minimum of `argminDownload` is below the
accumulator and every list element. -/
theorem foldl_minDownload_le :
    ∀ (xs : List SpeedTestResult) (acc : SpeedTestResult),
      (xs.foldl (fun a t => if t.download_mbps < a.download_mbps then t else a)
          acc).download_mbps ≤ acc.download_mbps ∧
      ∀ b ∈ xs,
        (xs.foldl (fun a t => if t.download_mbps < a.download_mbps then t else a)
            acc).download_mbps ≤ b.download_mbps
  | [], acc => ⟨le_refl _, by simp⟩
  | x :: xs, acc => by
      have ih := foldl_minDownload_le xs (if x.download_mbps < acc.download_mbps then x else acc)
      have hstep : (if x.download_mbps < acc.download_mbps then x
          else acc).download_mbps ≤ acc.download_mbps ∧
          (if x.download_mbps < acc.download_mbps then x
            else acc).download_mbps ≤ x.download_mbps := by
        by_cases hc : x.download_mbps < acc.download_mbps
        · rw [if_pos hc]; exact ⟨le_of_lt hc, le_refl _⟩
        · rw [if_neg hc]; exact ⟨le_refl _, le_of_not_lt hc⟩
      simp only [List.foldl_cons]
      refine ⟨ih.1.trans hstep.1, ?_⟩
      intro b hb
      rcases List.mem_cons.mp hb with rfl | hb
      · exact ih.1.trans hstep.2
      · exact ih.2 b hb

/-- Helper: `argminDownload` returns a member attaining the minimum
download throughput. -/
theorem argminDownload_spec (l : List SpeedTestResult) (w : SpeedTestResult)
    (h : argminDownload l = some w) :
    w ∈ l ∧ ∀ b ∈ l, w.download_mbps ≤ b.download_mbps := by
  cases l with
  | nil => simp [argminDownload] at h
  | cons x xs =>
      simp only [argminDownload, Option.some.injEq] at h
      subst h
      constructor
      · rcases foldl_minDownload_mem xs x with h | h
        · rw [h]; exact List.mem_cons_self x xs
        · exact List.mem_cons_of_mem x h
      · intro b hb
        rcases List.mem_cons.mp hb with rfl | hb
        · exact (foldl_minDownload_le xs b).1
        · exact (foldl_minDownload_le xs x).2 b hb

/-- Helper: the minimum-download element of the failed subset is minimal
over the whole batch: every non-failed sample is at or above the
threshold, which the minimum failed sample is strictly below. -/
theorem argminDownload_filter_le_all (l : List SpeedTestResult) (x : ℚ)
    (w : SpeedTestResult)
    (h : argminDownload (l.filter (fun t => decide (t.download_mbps < x))) = some w) :
    ∀ t ∈ l, w.download_mbps ≤ t.download_mbps := by
  obtain ⟨hmem, hmin⟩ := argminDownload_spec _ _ h
  have hw : w.download_mbps < x := by
    have hf := List.mem_filter.mp hmem
    simpa using hf.2
  intro t ht
  by_cases hc : t.download_mbps < x
  · exact hmin t (List.mem_filter.mpr ⟨ht, by simpa using hc⟩)
  · exact le_of_lt (lt_of_lt_of_le hw (le_of_not_lt hc))

/-- C7: the threshold speed is always computed as advertised speed times
threshold percent over 100 (it is a derived property of `Config`, not a
stored field), and for advertised 1000 Mbps at 70 percent it equals
exactly 700. -/
theorem threshold_speed_is_derived :
    (∀ c : Config,
      c.threshold_speed_mbps = c.advertised_speed_mbps * ((c.threshold_percent : ℚ) / 100))
    ∧ cfgA.advertised_speed_mbps = 1000
    ∧ cfgA.threshold_percent = 70
    ∧ cfgA.threshold_speed_mbps = 700 :=
  ⟨fun _ => rfl, rfl, rfl, by decide⟩

/-- C8: the complaint text generators are deterministic pure functions:
with the config, sample data and report date fixed, the rendered text
does not depend on the ambient world (two calls in different world
states return identical strings). -/
theorem generators_deterministic :
    ∀ (config : Config) (tests : List SpeedTestResult) (rd : DateTime)
      (s : SpeedTestResult) (failed all : List SpeedTestResult) (e1 e2 : Env),
      daily_complaint.generate_daily_complaint_text config tests rd e1
        = daily_complaint.generate_daily_complaint_text config tests rd e2
      ∧ fcc_complainer.generate_complaint_text config s e1
        = fcc_complainer.generate_complaint_text config s e2
      ∧ fcc_complainer.generate_daily_summary_complaint config rd failed all e1
        = fcc_complainer.generate_daily_summary_complaint config rd failed all e2 :=
  fun _ _ _ _ _ _ _ _ => ⟨rfl, rfl, rfl⟩

/-- C2 (code evaluated at the failing input): every daily-report
invocation of main.py that gets past date parsing terminates in an
uncaught `AttributeError`, because line 272 accesses
`Database.get_failed_tests_for_date`, which database.py does not define;
only an unparsable `--report-date` string returns an exit code (1). -/
theorem daily_report_raises_attribute_error :
    ∀ (config : Config) (db : DatabaseState) (dry_run email_only no_email : Bool)
      (env : Env),
      Main._run_daily_report config db dry_run none email_only no_email env
        = Except.error (PyError.attributeError "get_failed_tests_for_date")
      ∧ (∀ d : DateTime,
          Main._run_daily_report config db dry_run (some (some d)) email_only no_email env
            = Except.error (PyError.attributeError "get_failed_tests_for_date"))
      ∧ Main._run_daily_report config db dry_run (some none) email_only no_email env
        = Except.ok ⟨1, db, none⟩ :=
  fun _ _ _ _ _ _ => ⟨rfl, fun _ => rfl, rfl⟩

set_option maxRecDepth 100000

/-- C1 (code evaluated at the failing input): with a successful daily
complaint already on record for today — which the store lookup itself
reports — the daily flow of daily_complaint.py still files again:
it never consults the already-filed check, returns the "filed" exit
code 2 and appends a duplicate successful record. -/
theorem daily_flow_files_despite_prior_success :
    dbB.was_complaint_filed_for_date envA.now.date = true
    ∧ (daily_complaint.main cfgA dbB false false dayA envA (Except.ok ())).exit_code = 2
    ∧ ((daily_complaint.main cfgA dbB false false dayA envA (Except.ok ())).db.complaints.map
        (fun c => c.status)) = ["daily_filed", "daily_filed"] := by decide

/-- C5 counterexample: in the daily flow a submission failure is caught
and logged with status "daily_failed", not "failed" as the claim
states. -/
theorem daily_submission_failure_saves_daily_failed :
    ((daily_complaint.main cfgA dbA false false dayA envA
        (Except.error "submission failed")).db.complaints.map (fun c => c.status))
      = ["daily_failed"]
    ∧ (daily_complaint.main cfgA dbA false false dayA envA
        (Except.error "submission failed")).exit_code = 1
    ∧ "daily_failed" ≠ "failed" := by decide

/-- C6 counterexample: the record created by the daily aggregate flow of
daily_complaint.py references `tests[0]` — the first sample of the day
(id 1, 720 Mbps) — although the worst sample of the batch is a different
one (id 2, 650 Mbps). -/
theorem daily_record_references_first_not_worst :
    ((daily_complaint.main cfgA dbC true false dayA envA (Except.ok ())).db.complaints.map
        (fun c => c.speed_test_id)) = [1]
    ∧ argminDownload (dbC.get_speed_tests_for_date dayA.date) = some tE
    ∧ tE.id = 2
    ∧ (1 : Nat) ≠ 2 := by decide

/-- C9: on a day with no samples the daily flow of daily_complaint.py
returns the no-report outcome — exit code 0, store unchanged — and the
aggregation/rendering functions are never invoked (no text is
rendered). -/
theorem empty_day_is_no_report (config : Config) (db : DatabaseState)
    (dry_run force : Bool) (rd : DateTime) (env : Env) (filing : Except String Unit)
    (h : db.get_speed_tests_for_date rd.date = []) :
    daily_complaint.main config db dry_run force rd env filing = ⟨0, db, none⟩ := by
  unfold daily_complaint.main
  rw [h]

/-- C9 witness: a store with no rows for the reporting day yields the
no-report outcome. -/
theorem empty_day_is_no_report_witness :
    (DatabaseState.mk [] []).get_speed_tests_for_date dayA.date = []
    ∧ daily_complaint.main cfgA ⟨[], []⟩ false false dayA envA (Except.ok ())
        = ⟨0, ⟨[], []⟩, none⟩ :=
  ⟨by decide, empty_day_is_no_report cfgA ⟨[], []⟩ false false dayA envA (Except.ok ())
    (by decide)⟩

/-- C3: over any non-empty sample sequence the failed subset is exactly
the samples strictly below the threshold speed, the failure rate is
|failed| / |all| times 100 and lies in [0, 100] with |failed| at most
|all|; on downloads [650, 720, 680] against threshold 700 the failed
downloads are [650, 680], the rendered failure rate is "66.7" and the
rendered mean download is "683.33". -/
theorem failed_subset_and_failure_rate (config : Config) (tests : List SpeedTestResult)
    (h : tests ≠ []) :
    (∀ t, t ∈ daily_complaint.failed_tests config tests ↔
        t ∈ tests ∧ t.download_mbps < config.threshold_speed_mbps)
    ∧ daily_complaint.failure_rate config tests
        = ((daily_complaint.failed_tests config tests).length : ℚ) / (tests.length : ℚ) * 100
    ∧ (daily_complaint.failed_tests config tests).length ≤ tests.length
    ∧ 0 ≤ daily_complaint.failure_rate config tests
    ∧ daily_complaint.failure_rate config tests ≤ 100
    ∧ (daily_complaint.failed_tests cfgA [tA, tB, tC]).map (fun t => t.download_mbps)
        = [650, 680]
    ∧ formatFixed (daily_complaint.failure_rate cfgA [tA, tB, tC]) 1 = "66.7"
    ∧ formatFixed (daily_complaint.avg_download [tA, tB, tC]) 2 = "683.33" := by
  have hpos : 0 < tests.length := List.length_pos.mpr h
  have hle : (daily_complaint.failed_tests config tests).length ≤ tests.length :=
    List.length_filter_le _ _
  have hrate : daily_complaint.failure_rate config tests
      = ((daily_complaint.failed_tests config tests).length : ℚ) / (tests.length : ℚ) * 100 := by
    unfold daily_complaint.failure_rate
    rw [if_pos hpos]
  refine ⟨?_, hrate, hle, ?_, ?_, by decide, by decide, by decide⟩
  · intro t
    unfold daily_complaint.failed_tests
    rw [List.mem_filter]
    simp
  · rw [hrate]
    positivity
  · rw [hrate]
    have h1 : ((daily_complaint.failed_tests config tests).length : ℚ) / (tests.length : ℚ) ≤ 1 :=
      div_le_one_of_le₀ (by exact_mod_cast hle) (by positivity)
    calc ((daily_complaint.failed_tests config tests).length : ℚ) / (tests.length : ℚ) * 100
        ≤ 1 * 100 := mul_le_mul_of_nonneg_right h1 (by norm_num)
      _ = 100 := one_mul 100

/-- C3 witness: the bounds hold at the concrete three-sample day. -/
theorem failed_subset_and_failure_rate_witness :
    ([tA, tB, tC] : List SpeedTestResult) ≠ []
    ∧ daily_complaint.failure_rate cfgA [tA, tB, tC] ≤ 100 :=
  ⟨by decide, (failed_subset_and_failure_rate cfgA [tA, tB, tC] (by decide)).2.2.2.2.1⟩

/-- C4: the latest-complaint-for-day lookup of database.py matches only
complaints of that calendar date whose status is "filed" or
"daily_filed" — never "dry_run" or a failure status — and it does find
one whenever such a successful record exists. -/
theorem lookup_matches_successful_statuses_only (db : DatabaseState) (d : Nat × Nat × Nat) :
    (∀ c, db.get_daily_complaint_for_date d = some c →
        c ∈ db.complaints ∧ c.timestamp.date = d
          ∧ (c.status = "filed" ∨ c.status = "daily_filed")
          ∧ c.status ≠ "dry_run")
    ∧ (∀ c, c ∈ db.complaints → c.timestamp.date = d →
        (c.status = "filed" ∨ c.status = "daily_filed") →
        (db.get_daily_complaint_for_date d).isSome = true) := by
  constructor
  · intro c hc
    have hmem := head?_insertionSort_mem _ _ _ hc
    have hf := List.mem_filter.mp hmem
    have hcond := hf.2
    simp only [Bool.and_eq_true, Bool.or_eq_true, beq_iff_eq, decide_eq_true_eq] at hcond
    refine ⟨hf.1, hcond.1, hcond.2, ?_⟩
    rcases hcond.2 with h | h <;> simp [h]
  · intro c hmem hdate hstat
    apply head?_insertionSort_isSome
    apply List.ne_nil_of_mem (a := c)
    apply List.mem_filter.mpr
    refine ⟨hmem, ?_⟩
    simp only [Bool.and_eq_true, Bool.or_eq_true, beq_iff_eq, decide_eq_true_eq]
    exact ⟨hdate, hstat⟩

/-- C4 witness: in a store holding a "daily_filed" record for 2026-10-12
the lookup for that date finds a record. -/
theorem lookup_matches_successful_statuses_only_witness :
    (dbB.get_daily_complaint_for_date (2026, 10, 12)).isSome = true :=
  (lookup_matches_successful_statuses_only dbB (2026, 10, 12)).2 cPrev
    (by decide) (by decide) (Or.inr (by decide))

/-- C10 counterexample: the mean downloads computed independently by
the daily complaint generator (`statistics.mean`: exact sum, one final
rounding) and by the daily summary generator (float sum / len: a
rounding per addition) are not pairwise equal.  On three samples whose
download is the double nearest 0.1 Mbps, the former returns that double
back while the latter is one unit in the last place higher — the IEEE
divergence CPython reproduces as `statistics.mean([0.1] * 3) == 0.1`
versus `sum([0.1] * 3) / 3 == 0.10000000000000002`. -/
theorem ieee_means_diverge_across_surfaces :
    daily_complaint.avg_download_ieee [sF, sF, sF] = oneTenthDouble
    ∧ fcc_complainer.avg_download_ieee [sF, sF, sF]
        = 7205759403792795 / 72057594037927936
    ∧ daily_complaint.avg_download_ieee [sF, sF, sF]
        ≠ fcc_complainer.avg_download_ieee [sF, sF, sF] := by decide

/-- C10 (amended): across the three report surfaces, every statistic
whose computation involves no rounding, or is the identical sequence of
IEEE operations, is pairwise equal on every non-empty sample sequence:
minimum and maximum download (element selection, no arithmetic), the
failure rate (the same rounded division and multiplication in all three
surfaces, stated on both the exact values and the IEEE evaluations),
and the sum/len mean download of the summary generator and of the email
(operation for operation the same IEEE computation).  The means of all
three surfaces agree as exact real numbers — but not always as IEEE
evaluations, where `statistics.mean` rounds once and float sum/len
rounds per addition (see the counterexample above). -/
theorem statistics_agreement_across_surfaces (config : Config)
    (tests : List SpeedTestResult) (h : tests ≠ []) :
    daily_complaint.min_download tests = fcc_complainer.min_download tests
    ∧ daily_complaint.max_download tests = fcc_complainer.max_download tests
    ∧ fcc_complainer.min_download tests = email_notifier.min_download tests
    ∧ fcc_complainer.max_download tests = email_notifier.max_download tests
    ∧ daily_complaint.failure_rate config tests
        = fcc_complainer.failure_rate (daily_complaint.failed_tests config tests) tests
    ∧ fcc_complainer.failure_rate (daily_complaint.failed_tests config tests) tests
        = email_notifier.failure_rate (daily_complaint.failed_tests config tests) tests
    ∧ daily_complaint.failure_rate_ieee config tests
        = fcc_complainer.failure_rate_ieee (daily_complaint.failed_tests config tests) tests
    ∧ fcc_complainer.failure_rate_ieee (daily_complaint.failed_tests config tests) tests
        = email_notifier.failure_rate_ieee (daily_complaint.failed_tests config tests) tests
    ∧ fcc_complainer.avg_download_ieee tests = email_notifier.avg_download_ieee tests
    ∧ daily_complaint.avg_download tests = fcc_complainer.avg_download tests
    ∧ daily_complaint.avg_upload tests = fcc_complainer.avg_upload tests
    ∧ daily_complaint.avg_ping tests = fcc_complainer.avg_ping tests
    ∧ fcc_complainer.avg_download tests = email_notifier.avg_download tests := by
  have hpos : 0 < tests.length := List.length_pos.mpr h
  refine ⟨rfl, rfl, rfl, rfl, ?_, ?_, ?_, ?_, rfl, rfl, rfl, rfl, rfl⟩
  · unfold daily_complaint.failure_rate fcc_complainer.failure_rate
    rw [if_pos hpos]
  · unfold fcc_complainer.failure_rate email_notifier.failure_rate
    rw [if_pos hpos]
  · unfold daily_complaint.failure_rate_ieee fcc_complainer.failure_rate_ieee
    rw [if_pos hpos]
  · unfold fcc_complainer.failure_rate_ieee email_notifier.failure_rate_ieee
    rw [if_pos hpos]

/-- C10 amended witness: the agreement holds at the concrete three-sample
day. -/
theorem statistics_agreement_across_surfaces_witness :
    ([tA, tB, tC] : List SpeedTestResult) ≠ []
    ∧ daily_complaint.min_download [tA, tB, tC] = fcc_complainer.min_download [tA, tB, tC] :=
  ⟨by decide, (statistics_agreement_across_surfaces cfgA [tA, tB, tC] (by decide)).1⟩

/-- C5 (amended): whenever a filing attempt fails with a submission
error, the failure is caught and logged to the store — with status
"failed" in the single-test flow of main.py and status "daily_failed"
in the daily flow of daily_complaint.py — and the flow returns exit
code 1 instead of crashing. -/
theorem submission_failure_caught_and_logged (config : Config) (db : DatabaseState)
    (r : SpeedTestResult) (e : String) (env : Env)
    (config2 : Config) (db2 : DatabaseState) (rd : DateTime) (env2 : Env) (e2 : String)
    (t0 : SpeedTestResult) (rest : List SpeedTestResult)
    (h : r.download_mbps < config.threshold_speed_mbps)
    (h2 : db2.get_speed_tests_for_date rd.date = t0 :: rest) :
    (Main._run_speed_test_flow config db false false (Except.ok r)
        (Except.error e) env).exit_code = 1
    ∧ ((Main._run_speed_test_flow config db false false (Except.ok r)
        (Except.error e) env).db.complaints.map (fun c => c.status)).getLast?
        = some "failed"
    ∧ (daily_complaint.main config2 db2 false true rd env2 (Except.error e2)).exit_code = 1
    ∧ ((daily_complaint.main config2 db2 false true rd env2 (Except.error e2)).db.complaints.map
        (fun c => c.status)).getLast? = some "daily_failed" := by
  have hlt : ¬ (r.download_mbps ≥ config.threshold_speed_mbps) := not_le.mpr h
  have hs : ∀ (l : List Complaint) (c : Complaint),
      ((l ++ [c]).map (fun x => x.status)).getLast? = some c.status := by
    intro l c
    have hm : (l ++ [c]).map (fun x => x.status)
        = l.map (fun x => x.status) ++ [c.status] := by simp
    rw [hm, List.getLast?_concat]
  refine ⟨?_, ?_, ?_, ?_⟩
  · simp [Main._run_speed_test_flow, hlt]
  · simp only [Main._run_speed_test_flow, DatabaseState.save_speed_test,
      DatabaseState.save_complaint, if_neg hlt, Bool.false_eq_true, if_false]
    exact hs _ _
  · unfold daily_complaint.main
    rw [h2]
    simp
  · unfold daily_complaint.main
    rw [h2]
    simp only [Bool.not_true, Bool.and_false, Bool.false_eq_true, if_false,
      DatabaseState.save_complaint]
    exact hs _ _

/-- C5 witness: the concrete failing submission on the three-sample day. -/
theorem submission_failure_caught_and_logged_witness :
    tA.download_mbps < cfgA.threshold_speed_mbps
    ∧ (daily_complaint.main cfgA dbA false true dayA envA
        (Except.error "boom")).exit_code = 1 :=
  ⟨by decide,
    (submission_failure_caught_and_logged cfgA ⟨[], []⟩ tA "boom" envA cfgA dbA dayA envA
      "boom" tA [tB, tC] (by decide) (by decide)).2.2.1⟩

/-- Helper: appending a complaint referencing sample id `i` preserves the
"every record is old or references `i`" check. -/
theorem all_ref_append (old : List Complaint) (c : Complaint) (i : Nat)
    (hci : c.speed_test_id = i) :
    ((old ++ [c]).all (fun x => decide (x ∈ old) || (x.speed_test_id == i))) = true := by
  rw [List.all_eq_true]
  intro x hx
  rcases List.mem_append.mp hx with hx | hx
  · simp [hx]
  · rw [List.mem_singleton] at hx
    subst hx
    simp [hci]

/-- Helper: an unchanged store passes the "every record is old or
references `i`" check. -/
theorem all_ref_old (old : List Complaint) (i : Nat) :
    (old.all (fun x => decide (x ∈ old) || (x.speed_test_id == i))) = true := by
  rw [List.all_eq_true]
  intro x hx
  simp [hx]

/-- C6 (amended): every complaint record created by a daily aggregate
flow references exactly one sample by id; in the daily flow of
daily_complaint.py that sample is `tests[0]` — the first sample of the
day, not necessarily the worst — while in the daily-report flow of
main.py (with the missing store methods modelled from the spec) it is
the minimum-download failed sample, which attains the minimum download
of the whole aggregated batch. -/
theorem daily_record_reference_policy (config : Config) (db : DatabaseState)
    (dry_run force : Bool) (rd : DateTime) (env : Env) (filing : Except String Unit)
    (t0 : SpeedTestResult) (rest : List SpeedTestResult)
    (h : db.get_speed_tests_for_date rd.date = t0 :: rest) :
    (((daily_complaint.main config db dry_run force rd env filing).db.complaints.all
        (fun c => decide (c ∈ db.complaints) || (c.speed_test_id == t0.id))) = true)
    ∧ ∀ (config2 : Config) (db2 : DatabaseState) (dry2 eo2 : Bool) (rd2 : DateTime)
        (env2 : Env) (filing2 : Except String Bool) (ok2 : Bool) (w : SpeedTestResult),
        argminDownload
            (db2.get_failed_tests_for_date rd2.date config2.threshold_speed_mbps)
          = some w →
        ((((Main._run_daily_report_modelled config2 db2 dry2 eo2 rd2 env2 filing2
              ok2).db.complaints.all
            (fun c => decide (c ∈ db2.complaints) || (c.speed_test_id == w.id))) = true)
          ∧ (((db2.get_speed_tests_for_date rd2.date).all
              (fun t => decide (w.download_mbps ≤ t.download_mbps))) = true)) := by
  constructor
  · simp only [daily_complaint.main, h]
    repeat' split
    all_goals first
      | exact all_ref_old db.complaints t0.id
      | exact all_ref_append db.complaints _ t0.id rfl
  · intro config2 db2 dry2 eo2 rd2 env2 filing2 ok2 w h3
    have hmin : ∀ t ∈ db2.get_speed_tests_for_date rd2.date,
        w.download_mbps ≤ t.download_mbps := by
      apply argminDownload_filter_le_all (db2.get_speed_tests_for_date rd2.date)
        config2.threshold_speed_mbps w
      exact h3
    have hallmin : ((db2.get_speed_tests_for_date rd2.date).all
        (fun t => decide (w.download_mbps ≤ t.download_mbps))) = true := by
      rw [List.all_eq_true]
      intro t ht
      simp [hmin t ht]
    refine ⟨?_, hallmin⟩
    cases hall : db2.get_speed_tests_for_date rd2.date with
    | nil =>
        simp only [Main._run_daily_report_modelled, hall]
        exact all_ref_old db2.complaints w.id
    | cons a l =>
        simp only [Main._run_daily_report_modelled, hall, h3, Option.getD_some]
        repeat' split
        all_goals first
          | exact all_ref_old db2.complaints w.id
          | exact all_ref_append db2.complaints _ w.id rfl

/-- C6 amended witness: on the concrete two-sample day every record the
daily flow creates references the first sample, and the modelled worst
sample attains the minimum download of the whole batch. -/
theorem daily_record_reference_policy_witness :
    (((daily_complaint.main cfgA dbC true false dayA envA (Except.ok ())).db.complaints.all
        (fun c => decide (c ∈ dbC.complaints) || (c.speed_test_id == tD.id))) = true)
    ∧ (((dbC.get_speed_tests_for_date dayA.date).all
        (fun t => decide (tE.download_mbps ≤ t.download_mbps))) = true) :=
  ⟨(daily_record_reference_policy cfgA dbC true false dayA envA (Except.ok ()) tD [tE]
      (by decide)).1,
   ((daily_record_reference_policy cfgA dbC true false dayA envA (Except.ok ()) tD [tE]
      (by decide)).2 cfgA dbC true false dayA envA (Except.ok true) true tE (by decide)).2⟩
